import Mathlib

/-! # Verification of BFAIR/thermo/io.py and the MFA test-data script

Shallow embedding of the two source files of the repository:

* src/BFAIR/thermo/io.py — model loading / creation / bound adjustment
  (functions _path, load_cbm, load_data, create_model, adjust_model and the
  _ModelFactory behind the module-level `models` object).
* src/tests/test_data/MFA_modelInputsData/generate_test_data.py — a
  straight-line script, embedded as the ordered list of its statements so
  that the file-handle lifecycle can be stated.

External library objects (cobra, pytfa, pandas, optlang) are modelled
abstractly: a cobra/pytfa model carries a list of reactions, a list of
log-concentration variables, a compartment list and a solver configuration,
plus an opaque payload of type π for everything the repository code never
inspects; library calls are functions supplied by an environment record
`Env`; a raised Python exception is an `Except.error`.  Numeric bounds and
tolerances are rationals (the code only copies them around and compares
nothing, so the exact numeric type is irrelevant; `Rat` represents the
literal 1e-9 exactly).  Logging calls (`_silence_pytfa`) configure loggers
only and affect no value returned by any function, so they are not modelled.
-/

set_option autoImplicit false

/-- A reaction of a cobra/pytfa model: an identifier and a pair of numeric
flux bounds (lower, upper), as mutated by `adjust_model`. -/
structure Reaction where
  id : String
  bounds : Rat × Rat
deriving DecidableEq

/-- A log-concentration variable of a pytfa ThermoModel: an identifier and
the (lower, upper) bounds of its underlying optlang variable. -/
structure LogConcVar where
  id : String
  bounds : Rat × Rat
deriving DecidableEq

/-- The underlying cobra model (`tmodel.parent`): its reaction DictList plus
an opaque payload for everything else. -/
structure CobraModel (π : Type) where
  reactions : List Reaction
  payload : π
deriving DecidableEq

/-- The solver state reachable from `tmodel.solver`: the interface module
name (`tmodel.solver.interface.__name__`), the Gurobi NumericFocus parameter
(none when never set), the feasibility tolerance, and the presolve flag. -/
structure SolverConfig where
  interfaceName : String
  numericFocus : Option Nat
  feasibility : Rat
  presolve : Bool
deriving DecidableEq

/-- A pytfa ThermoModel with the fields io.py reads or writes: name, parent
cobra model, reaction DictList, compartment ids, log-concentration variable
DictList, solver configuration, and an opaque payload π for the
thermodynamic content handled only by library calls. -/
structure ThermoModel (π : Type) where
  name : String
  parent : CobraModel π
  reactions : List Reaction
  compartments : List String
  log_concentration : List LogConcVar
  solver : SolverConfig
  payload : π
deriving DecidableEq

/-- DictList.has_id on a reaction list: membership of an id. -/
def has_id_rxn (rs : List Reaction) (i : String) : Bool :=
  rs.any (fun r => r.id == i)

/-- DictList.has_id on a log-concentration variable list. -/
def has_id_lc (vs : List LogConcVar) (i : String) : Bool :=
  vs.any (fun v => v.id == i)

/-- Effect of `get_by_id(i).bounds = b` on a reaction DictList: the entry
with id `i` gets bounds `b` (ids in a DictList are unique; entries with a
different id are untouched). -/
def set_bounds_rxn (rs : List Reaction) (i : String) (b : Rat × Rat) :
    List Reaction :=
  rs.map (fun r => if r.id == i then Reaction.mk r.id b else r)

/-- Effect of `get_by_id(i).variable.set_bounds(lb, ub)` on the
log-concentration variable DictList. -/
def set_bounds_lc (vs : List LogConcVar) (i : String) (b : Rat × Rat) :
    List LogConcVar :=
  vs.map (fun v => if v.id == i then LogConcVar.mk v.id b else v)

/-- One iteration of the first loop of `adjust_model`, for one row
(rxn_id, lb, ub) of rxn_bounds:

    if tmodel.reactions.has_id(rxn_id):
        tmodel.parent.reactions.get_by_id(rxn_id).bounds = lb, ub
        tmodel.reactions.get_by_id(rxn_id).bounds = lb, ub

`get_by_id` on the parent raises KeyError when the parent lacks the id (the
existence check only consults `tmodel.reactions`), modelled as an error. -/
def apply_rxn_row {π : Type} (m : ThermoModel π) (row : String × Rat × Rat) :
    Except String (ThermoModel π) :=
  if has_id_rxn m.reactions row.1 then
    if has_id_rxn m.parent.reactions row.1 then
      Except.ok
        { m with
          parent :=
            { m.parent with
              reactions := set_bounds_rxn m.parent.reactions row.1 row.2 }
          reactions := set_bounds_rxn m.reactions row.1 row.2 }
    else Except.error ("KeyError: " ++ row.1)
  else Except.ok m

/-- Inner loop of the second half of `adjust_model`: for one row
(met, lb, ub) of lc_bounds, iterate over the compartments, and whenever
`met + "_" + compartment` is a log-concentration variable set its bounds. -/
def lc_row_comps {π : Type} (met : String) (b : Rat × Rat)
    (m : ThermoModel π) : List String → ThermoModel π
  | [] => m
  | c :: rest =>
    if has_id_lc m.log_concentration (met ++ "_" ++ c) then
      lc_row_comps met b
        { m with
          log_concentration :=
            set_bounds_lc m.log_concentration (met ++ "_" ++ c) b }
        rest
    else lc_row_comps met b m rest

/-- One iteration of the second loop of `adjust_model`, for one row of
lc_bounds. -/
def apply_lc_row {π : Type} (m : ThermoModel π) (row : String × Rat × Rat) :
    ThermoModel π :=
  lc_row_comps row.1 row.2 m m.compartments

/-- First loop of `adjust_model` over the rows of rxn_bounds; a raised
KeyError aborts the whole call. -/
def rxn_loop {π : Type} (m : ThermoModel π) :
    List (String × Rat × Rat) → Except String (ThermoModel π)
  | [] => Except.ok m
  | row :: rest =>
    match apply_rxn_row m row with
    | Except.error e => Except.error e
    | Except.ok m1 => rxn_loop m1 rest

/-- Second loop of `adjust_model` over the rows of lc_bounds (never fails:
`get_by_id` here is guarded by `has_id` on the same DictList). -/
def lc_loop {π : Type} (m : ThermoModel π) :
    List (String × Rat × Rat) → ThermoModel π
  | [] => m
  | row :: rest => lc_loop (apply_lc_row m row) rest

/-- adjust_model(tmodel, rxn_bounds, lc_bounds): constrain reactions, then
constrain log concentrations.  A table is its list of (id, lb, ub) rows. -/
def adjust_model {π : Type} (m : ThermoModel π)
    (rxn_bounds lc_bounds : List (String × Rat × Rat)) :
    Except String (ThermoModel π) :=
  match rxn_loop m rxn_bounds with
  | Except.error e => Except.error e
  | Except.ok m1 => Except.ok (lc_loop m1 lc_bounds)

/-- The environment of external library calls used by io.py.  Fallible calls
return `Except` (a raised exception is `Except.error`); `mkThermoModel` is
the `ThermoModel(thermo_data, cmodel)` constructor.  The pytfa calls
`annotate_from_lexicon`, `apply_compartment_data`, `prepare` and `convert`
act on the model's thermodynamic payload; they do not touch the solver
configuration fields that `create_model` sets. -/
structure Env (Θ Λ Γ π : Type) where
  static_dir : String
  load_thermoDB : String → Except String Θ
  read_lexicon : String → Except String Λ
  read_compartment_data : String → Except String Γ
  load_json_model : String → Except String (CobraModel π)
  mkThermoModel : Θ → CobraModel π → ThermoModel π
  annotate_from_lexicon : π → Λ → Except String π
  apply_compartment_data : π → Γ → Except String π
  prepare : π → Except String π
  convert : π → Except String π

/-- Model of _path(filename): os.path.join of the static folder and the
filename. -/
def path_static (static_dir filename : String) : String :=
  static_dir ++ "/" ++ filename

/-- load_cbm(model_name): load the JSON cobra model from the static
folder. -/
def load_cbm {Θ Λ Γ π : Type} (env : Env Θ Λ Γ π) (model_name : String) :
    Except String (CobraModel π) :=
  env.load_json_model (path_static env.static_dir (model_name ++ ".json"))

/-- load_data(model_name): thermo database, lexicon and compartment data,
each from its fixed path under the static folder, in that order. -/
def load_data {Θ Λ Γ π : Type} (env : Env Θ Λ Γ π) (model_name : String) :
    Except String (Θ × Λ × Γ) :=
  match env.load_thermoDB (path_static env.static_dir "thermo_data.thermodb") with
  | Except.error e => Except.error e
  | Except.ok thermo_data =>
    match env.read_lexicon
        (path_static env.static_dir (model_name ++ "/" ++ "lexicon.csv")) with
    | Except.error e => Except.error e
    | Except.ok lexicon =>
      match env.read_compartment_data
          (path_static env.static_dir
            (model_name ++ "/" ++ "compartment_data.json")) with
      | Except.error e => Except.error e
      | Except.ok compartment_data =>
        Except.ok (thermo_data, lexicon, compartment_data)

/-- Body of create_model after the all-or-none validation, with the three
data arguments in hand: load the cobra model, build the ThermoModel, set its
name, annotate from the lexicon, apply the compartment data, set the solver
configuration (NumericFocus 3 on Gurobi only, feasibility 1e-9, presolve
True), then prepare and convert. -/
def create_model_body {Θ Λ Γ π : Type} (env : Env Θ Λ Γ π)
    (model_name : String) (thermo_data : Θ) (lexicon : Λ)
    (compartment_data : Γ) : Except String (ThermoModel π) :=
  match load_cbm env model_name with
  | Except.error e => Except.error e
  | Except.ok cmodel =>
    let t0 := env.mkThermoModel thermo_data cmodel
    let t1 := { t0 with name := model_name }
    match env.annotate_from_lexicon t1.payload lexicon with
    | Except.error e => Except.error e
    | Except.ok p1 =>
      let t2 := { t1 with payload := p1 }
      match env.apply_compartment_data t2.payload compartment_data with
      | Except.error e => Except.error e
      | Except.ok p2 =>
        let t3 := { t2 with payload := p2 }
        let t4 :=
          if t3.solver.interfaceName == "optlang.gurobi_interface" then
            { t3 with solver := { t3.solver with numericFocus := some 3 } }
          else t3
        let t5 :=
          { t4 with
            solver :=
              { t4.solver with
                feasibility := (1 : Rat) / 1000000000
                presolve := true } }
        match env.prepare t5.payload with
        | Except.error e => Except.error e
        | Except.ok p3 =>
          let t6 := { t5 with payload := p3 }
          match env.convert t6.payload with
          | Except.error e => Except.error e
          | Except.ok p4 => Except.ok { t6 with payload := p4 }

/-- The message of the ValueError raised by create_model's all-or-none
validation. -/
def notAllDataMsg : String := "ValueError: Not all required data supplied."

/-- create_model(model_name, thermo_data=None, lexicon=None,
compartment_data=None).  data_is_none is the None-ness of the three optional
arguments: when all are None they are loaded via load_data; when only some
are None a ValueError is raised; otherwise the supplied values are used. -/
def create_model {Θ Λ Γ π : Type} (env : Env Θ Λ Γ π) (model_name : String)
    (thermo_data : Option Θ) (lexicon : Option Λ)
    (compartment_data : Option Γ) : Except String (ThermoModel π) :=
  match thermo_data, lexicon, compartment_data with
  | none, none, none =>
    match load_data env model_name with
    | Except.error e => Except.error e
    | Except.ok (td, lx, cd) => create_model_body env model_name td lx cd
  | some td, some lx, some cd => create_model_body env model_name td lx cd
  | _, _, _ => Except.error notAllDataMsg

/-- basename(path).split(".")[0]: the part of a filename before its first
dot (the whole name when it has no dot), computed on the character list. -/
def basename_before_dot (filename : String) : String :=
  String.mk (filename.data.takeWhile (fun c => c != '.'))

/-- Whether a filename ends with the given suffix (character-list
computation; used to model the glob pattern *.json). -/
def str_ends_with (s t : String) : Bool :=
  t.data.isSuffixOf s.data

/-- Whether a filename is a dotfile, which glob skips. -/
def starts_with_dot (s : String) : Bool :=
  match s.data with
  | [] => false
  | c :: _ => c == '.'

/-- The `_list` computed by _ModelFactory.__init__: the glob of *.json files
in the static folder (the folder is modelled by the list of its entry names;
glob matches names ending in ".json" and skips dotfiles), each stripped to
its basename before the first dot. -/
def factory_list (files : List String) : List String :=
  (files.filter (fun f => str_ends_with f ".json" && !(starts_with_dot f))).map
    basename_before_dot

/-- _ModelFactory.__dir__. -/
def factory_dir (files : List String) : List String := factory_list files

/-- _ModelFactory.__getattr__(item), which Python invokes only after normal
attribute lookup has failed: when item is in the discovered list, build the
model with create_model(item) (all three optional arguments defaulted to
None); otherwise fall through to super().__getattribute__, which re-raises
the AttributeError of the failed lookup. -/
def factory_getattr {Θ Λ Γ π : Type} (env : Env Θ Λ Γ π)
    (files : List String) (item : String) : Except String (ThermoModel π) :=
  if item ∈ factory_list files then create_model env item none none none
  else Except.error "AttributeError"

/-! ## The test-data generation script

generate_test_data.py is a straight-line module body (imports aside).  It is
embedded as the ordered list of its statements, so that the temporal
properties of the single file handle it opens can be stated over the
statement sequence. -/

/-- One top-level statement of generate_test_data.py. -/
inductive PyStmt where
  /-- pd.set_option(option, value) -/
  | setOption (opt : String)
  /-- var = open(file, mode) -/
  | openFile (var file mode : String)
  /-- var = pd.read_csv(file) -/
  | readCsv (var file : String)
  /-- var = "string literal" -/
  | strAssign (var : String)
  /-- vars = library_function(...) -/
  | libCall (vars fn : String)
  /-- pickle.dump(objects, handle) -/
  | pickleDump (handle : String)
  /-- handle.close() -/
  | closeFile (handle : String)
deriving DecidableEq

/-- The statements of generate_test_data.py, in source order. -/
def generate_test_data : List PyStmt :=
  [ PyStmt.setOption "mode.chained_assignment",
    PyStmt.openFile "filehandler" "test_data.obj" "wb",
    PyStmt.readCsv "atomMappingReactions_data_I"
      "data_stage02_isotopomer_atomMappingReactions2.csv",
    PyStmt.readCsv "modelReaction_data_I"
      "data_stage02_isotopomer_modelReactions.csv",
    PyStmt.strAssign "biomass_function",
    PyStmt.readCsv "atomMappingMetabolite_data_I"
      "data_stage02_isotopomer_atomMappingMetabolites.csv",
    PyStmt.readCsv "measuredFluxes_data_I"
      "data_stage02_isotopomer_measuredFluxes.csv",
    PyStmt.readCsv "experimentalMS_data_I" "data-1604345289079.csv",
    PyStmt.readCsv "tracer_I" "data_stage02_isotopomer_tracers.csv",
    PyStmt.libCall "atomMappingReactions_data_I" "limit_to_one_model",
    PyStmt.libCall "modelReaction_data_I" "limit_to_one_model",
    PyStmt.libCall "atomMappingMetabolite_data_I" "limit_to_one_model",
    PyStmt.libCall "measuredFluxes_data_I" "limit_to_one_model",
    PyStmt.libCall "measuredFluxes_data_I" "limit_to_one_experiment",
    PyStmt.libCall "experimentalMS_data_I" "limit_to_one_experiment",
    PyStmt.libCall "tracer_I" "limit_to_one_experiment",
    PyStmt.libCall "initiated_MATLAB_script" "initiate_MATLAB_script",
    PyStmt.libCall "model_reactions, model_rxn_ids" "add_reactions_to_script",
    PyStmt.libCall "initialized_model" "initialize_model",
    PyStmt.libCall "symmetrical_metabolites_script" "symmetrical_metabolites",
    PyStmt.libCall "unbalanced_reactions_script" "unbalanced_reactions",
    PyStmt.libCall "reaction_parameters" "add_reaction_parameters",
    PyStmt.libCall "verify_and_estimate_script" "verify_and_estimate",
    PyStmt.libCall "experimental_parameters, fragments_used"
      "add_experimental_parameters",
    PyStmt.libCall "mapping_script" "mapping",
    PyStmt.libCall "script" "script_generator",
    PyStmt.libCall "runner" "runner_script_generator",
    PyStmt.pickleDump "filehandler",
    PyStmt.closeFile "filehandler" ]

/-- Whether a statement touches a file handle (opens, writes through, or
closes one). -/
def touches_handle : PyStmt → Bool
  | PyStmt.openFile _ _ _ => true
  | PyStmt.pickleDump _ => true
  | PyStmt.closeFile _ => true
  | _ => false

/-- Whether a statement opens a file. -/
def is_open_stmt : PyStmt → Bool
  | PyStmt.openFile _ _ _ => true
  | _ => false

/-! ## Concrete test data used by the witnesses -/

/-- A concrete environment over Nat payloads in which every library call
succeeds; the witnesses instantiate the theorems with it. -/
def wEnv : Env Nat Nat Nat Nat :=
  { static_dir := "BFAIR/thermo/static"
    load_thermoDB := fun _ => Except.ok 7
    read_lexicon := fun _ => Except.ok 8
    read_compartment_data := fun _ => Except.ok 9
    load_json_model := fun _ => Except.ok { reactions := [], payload := 1 }
    mkThermoModel := fun _ cm =>
      { name := ""
        parent := cm
        reactions := cm.reactions
        compartments := []
        log_concentration := []
        solver :=
          { interfaceName := "optlang.glpk_interface"
            numericFocus := none
            feasibility := 0
            presolve := false }
        payload := cm.payload }
    annotate_from_lexicon := fun p _ => Except.ok (p + 10)
    apply_compartment_data := fun p _ => Except.ok (p + 100)
    prepare := fun p => Except.ok (p + 1000)
    convert := fun p => Except.ok (p + 10000) }

/-- A concrete ThermoModel used by the adjust_model witnesses. -/
def wModel : ThermoModel Nat :=
  { name := "small_ecoli"
    parent := { reactions := [Reaction.mk "R1" (0, 0), Reaction.mk "R2" (0, 0)], payload := 1 }
    reactions := [Reaction.mk "R1" (0, 0), Reaction.mk "R2" (0, 0)]
    compartments := ["c", "e"]
    log_concentration := [LogConcVar.mk "glc_c" (0, 0), LogConcVar.mk "glc_e" (0, 0)]
    solver :=
      { interfaceName := "optlang.glpk_interface"
        numericFocus := none
        feasibility := 0
        presolve := false }
    payload := 5 }

/-! ## Theorems -/

/-- C1: create_model raises its ValueError exactly when some but not all of
thermo_data, lexicon and compartment_data are None; when all three are None
it proceeds on the triple loaded by load_data(model_name); when all three
are supplied the call is the plain pipeline body, which contains no such
raise. -/
theorem create_model_all_or_none {Θ Λ Γ π : Type} (env : Env Θ Λ Γ π)
    (model_name : String) (t : Option Θ) (l : Option Λ) (c : Option Γ) :
    (t = none ∧ l = none ∧ c = none →
      create_model env model_name t l c =
        match load_data env model_name with
        | Except.error e => Except.error e
        | Except.ok (td, lx, cd) => create_model_body env model_name td lx cd)
    ∧ ((t.isNone ∨ l.isNone ∨ c.isNone) →
      ¬(t = none ∧ l = none ∧ c = none) →
      create_model env model_name t l c = Except.error notAllDataMsg)
    ∧ (∀ td lx cd,
      create_model env model_name (some td) (some lx) (some cd) =
        create_model_body env model_name td lx cd) := by
  refine ⟨?_, ?_, fun td lx cd => rfl⟩
  · rintro ⟨rfl, rfl, rfl⟩
    rfl
  · intro hsome hnotall
    cases t <;> cases l <;> cases c <;> simp_all [create_model]

/-- Witness for C1 at a concrete mixed input: lexicon and compartment data
supplied but no thermo database. -/
theorem create_model_all_or_none_witness :
    create_model wEnv "small_ecoli" none (some 8) (some 9) =
      Except.error notAllDataMsg :=
  (create_model_all_or_none wEnv "small_ecoli" none (some 8) (some 9)).2.1
    (Or.inl rfl) (by simp)

/-- C5: load_data reads from fixed direct paths under the static folder and
returns the triple (thermo database from "thermo_data.thermodb", lexicon
from "model_name/lexicon.csv", compartment data from
"model_name/compartment_data.json") in that order. -/
theorem load_data_paths {Θ Λ Γ π : Type} (env : Env Θ Λ Γ π)
    (model_name : String) (td : Θ) (lx : Λ) (cd : Γ)
    (h1 : env.load_thermoDB
        (path_static env.static_dir "thermo_data.thermodb") = Except.ok td)
    (h2 : env.read_lexicon
        (path_static env.static_dir (model_name ++ "/" ++ "lexicon.csv")) =
      Except.ok lx)
    (h3 : env.read_compartment_data
        (path_static env.static_dir
          (model_name ++ "/" ++ "compartment_data.json")) = Except.ok cd) :
    load_data env model_name = Except.ok (td, lx, cd) := by
  simp [load_data, h1, h2, h3]

/-- Witness for C5 in the concrete environment. -/
theorem load_data_paths_witness :
    load_data wEnv "small_ecoli" = Except.ok (7, 8, 9) :=
  load_data_paths wEnv "small_ecoli" 7 8 9 rfl rfl rfl

/-- C4: dir(models) lists the basenames (stripped at the first dot) of the
*.json files discovered in the static folder, and accessing any discovered
name as an attribute returns exactly create_model(name) with the three data
arguments defaulted. -/
theorem models_factory_spec {Θ Λ Γ π : Type} (env : Env Θ Λ Γ π)
    (files : List String) :
    factory_dir files =
      (files.filter (fun f => str_ends_with f ".json" && !(starts_with_dot f))).map
        basename_before_dot
    ∧ ∀ item, item ∈ factory_dir files →
      factory_getattr env files item =
        create_model env item none none none := by
  refine ⟨rfl, fun item h => ?_⟩
  exact if_pos h

/-- Witness for C4: the concrete static folder of the repository. -/
theorem models_factory_spec_witness :
    factory_dir ["small_ecoli.json", "iJO1366.json", "__init__.py"] =
      ["small_ecoli", "iJO1366"]
    ∧ factory_getattr wEnv ["small_ecoli.json", "iJO1366.json", "__init__.py"]
        "small_ecoli" =
      create_model wEnv "small_ecoli" none none none :=
  ⟨(models_factory_spec wEnv
      ["small_ecoli.json", "iJO1366.json", "__init__.py"]).1.trans (by decide),
   (models_factory_spec wEnv
      ["small_ecoli.json", "iJO1366.json", "__init__.py"]).2
      "small_ecoli" (by decide)⟩

/-- C10: an attribute name outside the discovered model list makes
__getattr__ fall through to the default lookup, which raises AttributeError;
the result does not depend on the library environment, so create_model is
never triggered for such a name. -/
theorem factory_getattr_missing {Θ Λ Γ π : Type} (env env' : Env Θ Λ Γ π)
    (files : List String) (item : String)
    (h : item ∉ factory_list files) :
    factory_getattr env files item = Except.error "AttributeError"
    ∧ factory_getattr env files item = factory_getattr env' files item := by
  refine ⟨if_neg h, ?_⟩
  show (if _ ∈ _ then _ else _) = (if _ ∈ _ then _ else _)
  rw [if_neg h, if_neg h]

/-- Witness for C10 at a name that is not a discovered model. -/
theorem factory_getattr_missing_witness :
    factory_getattr wEnv ["small_ecoli.json", "iJO1366.json"] "missing" =
      Except.error "AttributeError"
    ∧ factory_getattr wEnv ["small_ecoli.json", "iJO1366.json"] "missing" =
      factory_getattr { wEnv with static_dir := "elsewhere" }
        ["small_ecoli.json", "iJO1366.json"] "missing" :=
  factory_getattr_missing wEnv { wEnv with static_dir := "elsewhere" }
    ["small_ecoli.json", "iJO1366.json"] "missing" (by decide)

/-- C8: the script opens exactly one file handle, on "test_data.obj" in mode
"wb"; the only operations on any handle are that open, a single pickle.dump,
and a close, in that order, so the handle is never used after close; and the
close is the final statement of the script. -/
theorem generate_test_data_handle_lifecycle :
    generate_test_data.filter touches_handle =
      [PyStmt.openFile "filehandler" "test_data.obj" "wb",
       PyStmt.pickleDump "filehandler",
       PyStmt.closeFile "filehandler"]
    ∧ (generate_test_data.filter is_open_stmt).length = 1
    ∧ generate_test_data.getLast? = some (PyStmt.closeFile "filehandler") :=
  ⟨rfl, rfl, rfl⟩
/-- C6: a successful create_model call returns a model whose solver has
feasibility tolerance 1e-9 and presolve True, and whose Gurobi NumericFocus
parameter is set to 3 exactly when the solver interface is
optlang.gurobi_interface (otherwise it is left as the constructor made
it). -/
theorem create_model_solver_config {Θ Λ Γ π : Type} (env : Env Θ Λ Γ π)
    (model_name : String) (td : Θ) (lx : Λ) (cd : Γ) (m : ThermoModel π)
    (h : create_model env model_name (some td) (some lx) (some cd) =
      Except.ok m) :
    m.solver.feasibility = (1 : Rat) / 1000000000
    ∧ m.solver.presolve = true
    ∧ ∃ cm, load_cbm env model_name = Except.ok cm
        ∧ m.solver.interfaceName =
            (env.mkThermoModel td cm).solver.interfaceName
        ∧ m.solver.numericFocus =
            (if (env.mkThermoModel td cm).solver.interfaceName ==
                "optlang.gurobi_interface"
             then some 3
             else (env.mkThermoModel td cm).solver.numericFocus) := by
  have hb : create_model_body env model_name td lx cd = Except.ok m := h
  unfold create_model_body at hb
  cases hcm : load_cbm env model_name with
  | error e => rw [hcm] at hb; exact absurd hb (by simp)
  | ok cm =>
    rw [hcm] at hb
    simp only at hb
    cases ha : env.annotate_from_lexicon (env.mkThermoModel td cm).payload lx with
    | error e => rw [ha] at hb; exact absurd hb (by simp)
    | ok p1 =>
      rw [ha] at hb
      simp only at hb
      cases hap : env.apply_compartment_data p1 cd with
      | error e => rw [hap] at hb; exact absurd hb (by simp)
      | ok p2 =>
        rw [hap] at hb
        simp only at hb
        by_cases hg : (env.mkThermoModel td cm).solver.interfaceName ==
            "optlang.gurobi_interface"
        · rw [if_pos hg] at hb
          cases hp : env.prepare p2 with
          | error e => rw [hp] at hb; exact absurd hb (by simp)
          | ok p3 =>
            rw [hp] at hb
            simp only at hb
            cases hc : env.convert p3 with
            | error e => rw [hc] at hb; exact absurd hb (by simp)
            | ok p4 =>
              rw [hc] at hb
              simp only [Except.ok.injEq] at hb
              subst hb
              refine ⟨rfl, rfl, cm, rfl, rfl, ?_⟩
              rw [if_pos hg]
        · rw [if_neg hg] at hb
          cases hp : env.prepare p2 with
          | error e => rw [hp] at hb; exact absurd hb (by simp)
          | ok p3 =>
            rw [hp] at hb
            simp only at hb
            cases hc : env.convert p3 with
            | error e => rw [hc] at hb; exact absurd hb (by simp)
            | ok p4 =>
              rw [hc] at hb
              simp only [Except.ok.injEq] at hb
              subst hb
              refine ⟨rfl, rfl, cm, rfl, rfl, ?_⟩
              rw [if_neg hg]

/-- The model create_model returns in the concrete environment. -/
def wCreated : ThermoModel Nat :=
  { name := "small_ecoli"
    parent := { reactions := [], payload := 1 }
    reactions := []
    compartments := []
    log_concentration := []
    solver :=
      { interfaceName := "optlang.glpk_interface"
        numericFocus := none
        feasibility := (1 : Rat) / 1000000000
        presolve := true }
    payload := 11111 }

/-- Witness for C6 in the concrete environment. -/
theorem create_model_solver_config_witness :
    wCreated.solver.feasibility = (1 : Rat) / 1000000000
    ∧ wCreated.solver.presolve = true
    ∧ ∃ cm, load_cbm wEnv "small_ecoli" = Except.ok cm
        ∧ wCreated.solver.interfaceName =
            (wEnv.mkThermoModel 7 cm).solver.interfaceName
        ∧ wCreated.solver.numericFocus =
            (if (wEnv.mkThermoModel 7 cm).solver.interfaceName ==
                "optlang.gurobi_interface"
             then some 3
             else (wEnv.mkThermoModel 7 cm).solver.numericFocus) :=
  create_model_solver_config wEnv "small_ecoli" 7 8 9 wCreated (by rfl)

/-! ## Lemmas on bound updates -/

/-- Every reaction with the given id carries the given bounds. -/
def rxn_bounds_set (rs : List Reaction) (i : String) (b : Rat × Rat) : Prop :=
  ∀ r ∈ rs, r.id = i → r.bounds = b

/-- Every log-concentration variable with the given id carries the given
bounds. -/
def lc_bounds_set (vs : List LogConcVar) (i : String) (b : Rat × Rat) : Prop :=
  ∀ v ∈ vs, v.id = i → v.bounds = b

theorem rxn_bounds_set_of_set (rs : List Reaction) (i : String)
    (b : Rat × Rat) : rxn_bounds_set (set_bounds_rxn rs i b) i b := by
  intro r hr hid
  simp only [set_bounds_rxn, List.mem_map] at hr
  obtain ⟨r0, hr0, heq⟩ := hr
  cases h0 : (r0.id == i) <;> simp only [h0] at heq
  · rw [if_neg (by simp [h0])] at heq
    rw [← heq] at hid
    simp [hid] at h0
  · rw [if_pos (by simp [h0])] at heq
    rw [← heq]

theorem rxn_bounds_set_of_set_other (rs : List Reaction) (i j : String)
    (b b' : Rat × Rat) (hne : j ≠ i) (hP : rxn_bounds_set rs i b) :
    rxn_bounds_set (set_bounds_rxn rs j b') i b := by
  intro r hr hid
  simp only [set_bounds_rxn, List.mem_map] at hr
  obtain ⟨r0, hr0, heq⟩ := hr
  cases h0 : (r0.id == j) <;> simp only [h0] at heq
  · rw [if_neg (by simp [h0])] at heq
    subst heq
    exact hP r0 hr0 hid
  · rw [if_pos (by simp [h0])] at heq
    rw [← heq] at hid
    simp at hid
    rw [hid] at h0
    simp at h0
    exact absurd h0.symm hne

theorem has_id_rxn_set_bounds (rs : List Reaction) (i j : String)
    (b : Rat × Rat) :
    has_id_rxn (set_bounds_rxn rs j b) i = has_id_rxn rs i := by
  induction rs with
  | nil => rfl
  | cons r rs ih =>
    simp only [set_bounds_rxn, List.map_cons, has_id_rxn, List.any_cons] at *
    cases h0 : (r.id == j)
    · rw [if_neg (by simp [h0]), ih]
    · rw [if_pos (by simp [h0]), ih]

theorem lc_bounds_set_of_set (vs : List LogConcVar) (i : String)
    (b : Rat × Rat) : lc_bounds_set (set_bounds_lc vs i b) i b := by
  intro v hv hid
  simp only [set_bounds_lc, List.mem_map] at hv
  obtain ⟨v0, hv0, heq⟩ := hv
  cases h0 : (v0.id == i) <;> simp only [h0] at heq
  · rw [if_neg (by simp [h0])] at heq
    rw [← heq] at hid
    simp [hid] at h0
  · rw [if_pos (by simp [h0])] at heq
    rw [← heq]

theorem lc_bounds_set_of_set_other (vs : List LogConcVar) (i j : String)
    (b b' : Rat × Rat) (hne : j ≠ i) (hP : lc_bounds_set vs i b) :
    lc_bounds_set (set_bounds_lc vs j b') i b := by
  intro v hv hid
  simp only [set_bounds_lc, List.mem_map] at hv
  obtain ⟨v0, hv0, heq⟩ := hv
  cases h0 : (v0.id == j) <;> simp only [h0] at heq
  · rw [if_neg (by simp [h0])] at heq
    subst heq
    exact hP v0 hv0 hid
  · rw [if_pos (by simp [h0])] at heq
    rw [← heq] at hid
    simp at hid
    rw [hid] at h0
    simp at h0
    exact absurd h0.symm hne

theorem has_id_lc_set_bounds (vs : List LogConcVar) (i j : String)
    (b : Rat × Rat) :
    has_id_lc (set_bounds_lc vs j b) i = has_id_lc vs i := by
  induction vs with
  | nil => rfl
  | cons v vs ih =>
    simp only [set_bounds_lc, List.map_cons, has_id_lc, List.any_cons] at *
    cases h0 : (v.id == j)
    · rw [if_neg (by simp [h0]), ih]
    · rw [if_pos (by simp [h0]), ih]

theorem apply_rxn_row_ok_fields {π : Type} (m m1 : ThermoModel π)
    (row : String × Rat × Rat)
    (h : apply_rxn_row m row = Except.ok m1) :
    m1.name = m.name ∧ m1.compartments = m.compartments
    ∧ m1.log_concentration = m.log_concentration ∧ m1.solver = m.solver
    ∧ (∀ i, has_id_rxn m1.reactions i = has_id_rxn m.reactions i)
    ∧ (∀ i, has_id_rxn m1.parent.reactions i
        = has_id_rxn m.parent.reactions i) := by
  unfold apply_rxn_row at h
  by_cases h1 : has_id_rxn m.reactions row.1
  · rw [if_pos h1] at h
    by_cases h2 : has_id_rxn m.parent.reactions row.1
    · rw [if_pos h2] at h
      simp only [Except.ok.injEq] at h
      subst h
      exact ⟨rfl, rfl, rfl, rfl, fun i => has_id_rxn_set_bounds _ i row.1 row.2,
        fun i => has_id_rxn_set_bounds _ i row.1 row.2⟩
    · rw [if_neg h2] at h
      exact absurd h (by simp)
  · rw [if_neg h1] at h
    simp only [Except.ok.injEq] at h
    subst h
    exact ⟨rfl, rfl, rfl, rfl, fun i => rfl, fun i => rfl⟩

theorem apply_rxn_row_pres {π : Type} (m m1 : ThermoModel π)
    (row : String × Rat × Rat) (i : String) (b : Rat × Rat)
    (h : apply_rxn_row m row = Except.ok m1)
    (hrow : row.1 = i → row.2 = b)
    (hP : rxn_bounds_set m.reactions i b)
    (hQ : rxn_bounds_set m.parent.reactions i b) :
    rxn_bounds_set m1.reactions i b
    ∧ rxn_bounds_set m1.parent.reactions i b := by
  unfold apply_rxn_row at h
  by_cases h1 : has_id_rxn m.reactions row.1
  · rw [if_pos h1] at h
    by_cases h2 : has_id_rxn m.parent.reactions row.1
    · rw [if_pos h2] at h
      simp only [Except.ok.injEq] at h
      subst h
      by_cases hji : row.1 = i
      · rw [hji, hrow hji]
        exact ⟨rxn_bounds_set_of_set _ i b, rxn_bounds_set_of_set _ i b⟩
      · exact ⟨rxn_bounds_set_of_set_other _ _ _ _ _ hji hP,
          rxn_bounds_set_of_set_other _ _ _ _ _ hji hQ⟩
    · rw [if_neg h2] at h
      exact absurd h (by simp)
  · rw [if_neg h1] at h
    simp only [Except.ok.injEq] at h
    subst h
    exact ⟨hP, hQ⟩

theorem apply_rxn_row_sets {π : Type} (m m1 : ThermoModel π)
    (row : String × Rat × Rat)
    (h : apply_rxn_row m row = Except.ok m1)
    (hhas : has_id_rxn m.reactions row.1 = true) :
    rxn_bounds_set m1.reactions row.1 row.2
    ∧ rxn_bounds_set m1.parent.reactions row.1 row.2
    ∧ has_id_rxn m1.parent.reactions row.1 = true := by
  unfold apply_rxn_row at h
  rw [if_pos hhas] at h
  by_cases h2 : has_id_rxn m.parent.reactions row.1
  · rw [if_pos h2] at h
    simp only [Except.ok.injEq] at h
    subst h
    refine ⟨rxn_bounds_set_of_set _ row.1 row.2,
      rxn_bounds_set_of_set _ row.1 row.2, ?_⟩
    rw [has_id_rxn_set_bounds]
    exact h2
  · rw [if_neg h2] at h
    exact absurd h (by simp)

theorem rxn_loop_ok_fields {π : Type} (rows : List (String × Rat × Rat)) :
    ∀ (m m' : ThermoModel π), rxn_loop m rows = Except.ok m' →
    m'.name = m.name ∧ m'.compartments = m.compartments
    ∧ m'.log_concentration = m.log_concentration ∧ m'.solver = m.solver
    ∧ (∀ i, has_id_rxn m'.reactions i = has_id_rxn m.reactions i)
    ∧ (∀ i, has_id_rxn m'.parent.reactions i
        = has_id_rxn m.parent.reactions i) := by
  induction rows with
  | nil =>
    intro m m' h
    simp only [rxn_loop, Except.ok.injEq] at h
    subst h
    exact ⟨rfl, rfl, rfl, rfl, fun i => rfl, fun i => rfl⟩
  | cons row rest ih =>
    intro m m' h
    unfold rxn_loop at h
    cases happ : apply_rxn_row m row with
    | error e =>
      rw [happ] at h
      exact absurd h (by simp)
    | ok m1 =>
      rw [happ] at h
      simp only at h
      obtain ⟨hn, hc, hl, hs, hh, hhp⟩ := apply_rxn_row_ok_fields m m1 row happ
      obtain ⟨hn', hc', hl', hs', hh', hhp'⟩ := ih m1 m' h
      exact ⟨hn'.trans hn, hc'.trans hc, hl'.trans hl, hs'.trans hs,
        fun i => (hh' i).trans (hh i), fun i => (hhp' i).trans (hhp i)⟩

theorem rxn_loop_pres {π : Type} (rows : List (String × Rat × Rat))
    (i : String) (b : Rat × Rat) :
    ∀ (m m' : ThermoModel π), rxn_loop m rows = Except.ok m' →
    (∀ row ∈ rows, row.1 = i → row.2 = b) →
    rxn_bounds_set m.reactions i b → rxn_bounds_set m.parent.reactions i b →
    rxn_bounds_set m'.reactions i b
    ∧ rxn_bounds_set m'.parent.reactions i b := by
  induction rows with
  | nil =>
    intro m m' h _ hP hQ
    simp only [rxn_loop, Except.ok.injEq] at h
    subst h
    exact ⟨hP, hQ⟩
  | cons row rest ih =>
    intro m m' h hall hP hQ
    unfold rxn_loop at h
    cases happ : apply_rxn_row m row with
    | error e =>
      rw [happ] at h
      exact absurd h (by simp)
    | ok m1 =>
      rw [happ] at h
      simp only at h
      obtain ⟨hP1, hQ1⟩ := apply_rxn_row_pres m m1 row i b happ
        (hall row (List.mem_cons_self row rest)) hP hQ
      exact ih m1 m' h (fun r hr => hall r (List.mem_cons_of_mem _ hr)) hP1 hQ1

theorem rxn_loop_sets {π : Type} (rows : List (String × Rat × Rat))
    (i : String) (b : Rat × Rat) :
    ∀ (m m' : ThermoModel π), rxn_loop m rows = Except.ok m' →
    (∃ row ∈ rows, row.1 = i) →
    (∀ row ∈ rows, row.1 = i → row.2 = b) →
    has_id_rxn m.reactions i = true →
    rxn_bounds_set m'.reactions i b ∧ rxn_bounds_set m'.parent.reactions i b
    ∧ has_id_rxn m'.reactions i = true
    ∧ has_id_rxn m'.parent.reactions i = true := by
  induction rows with
  | nil =>
    intro m m' h hex _ _
    simp at hex
  | cons row rest ih =>
    intro m m' h hex hall hhas
    unfold rxn_loop at h
    cases happ : apply_rxn_row m row with
    | error e =>
      rw [happ] at h
      exact absurd h (by simp)
    | ok m1 =>
      rw [happ] at h
      simp only at h
      obtain ⟨hfn, hfc, hfl, hfs, hfh, hfhp⟩ := apply_rxn_row_ok_fields m m1 row happ
      by_cases hhead : row.1 = i
      · have hb : row.2 = b := hall row (List.mem_cons_self row rest) hhead
        have hsets := apply_rxn_row_sets m m1 row happ (by rw [hhead]; exact hhas)
        rw [hhead, hb] at hsets
        obtain ⟨hP1, hQ1, hp1⟩ := hsets
        obtain ⟨hP', hQ'⟩ := rxn_loop_pres rest i b m1 m' h
          (fun r hr => hall r (List.mem_cons_of_mem _ hr)) hP1 hQ1
        obtain ⟨_, _, _, _, hh', hhp'⟩ := rxn_loop_ok_fields rest m1 m' h
        refine ⟨hP', hQ', ?_, ?_⟩
        · rw [hh' i, hfh i]
          exact hhas
        · rw [hhp' i]
          exact hp1
      · obtain ⟨row0, hrow0, hrow0i⟩ := hex
        have hr0 : row0 ∈ rest := by
          cases List.mem_cons.mp hrow0 with
          | inl hh => exact absurd (hh ▸ hrow0i) hhead
          | inr ht => exact ht
        exact ih m1 m' h ⟨row0, hr0, hrow0i⟩
          (fun r hr => hall r (List.mem_cons_of_mem _ hr))
          (by rw [hfh i]; exact hhas)

theorem lc_row_comps_fields {π : Type} (met : String) (b : Rat × Rat)
    (comps : List String) :
    ∀ (m : ThermoModel π),
    (lc_row_comps met b m comps).name = m.name
    ∧ (lc_row_comps met b m comps).parent = m.parent
    ∧ (lc_row_comps met b m comps).reactions = m.reactions
    ∧ (lc_row_comps met b m comps).compartments = m.compartments
    ∧ (lc_row_comps met b m comps).solver = m.solver
    ∧ ∀ i, has_id_lc (lc_row_comps met b m comps).log_concentration i
        = has_id_lc m.log_concentration i := by
  induction comps with
  | nil =>
    intro m
    exact ⟨rfl, rfl, rfl, rfl, rfl, fun i => rfl⟩
  | cons c rest ih =>
    intro m
    unfold lc_row_comps
    by_cases h0 : has_id_lc m.log_concentration (met ++ "_" ++ c)
    · rw [if_pos h0]
      obtain ⟨h1, h2, h3, h4, h5, h6⟩ := ih _
      exact ⟨h1, h2, h3, h4, h5,
        fun i => (h6 i).trans (has_id_lc_set_bounds _ i _ b)⟩
    · rw [if_neg h0]
      exact ih m

theorem lc_row_comps_pres {π : Type} (met : String) (b : Rat × Rat)
    (comps : List String) (i : String) (b0 : Rat × Rat) :
    ∀ (m : ThermoModel π),
    (∀ c ∈ comps, met ++ "_" ++ c = i → b = b0) →
    lc_bounds_set m.log_concentration i b0 →
    lc_bounds_set (lc_row_comps met b m comps).log_concentration i b0 := by
  induction comps with
  | nil =>
    intro m _ hP
    exact hP
  | cons c rest ih =>
    intro m hall hP
    unfold lc_row_comps
    by_cases h0 : has_id_lc m.log_concentration (met ++ "_" ++ c)
    · rw [if_pos h0]
      refine ih _ (fun c' hc' => hall c' (List.mem_cons_of_mem _ hc')) ?_
      by_cases hmi : met ++ "_" ++ c = i
      · rw [hmi, hall c (List.mem_cons_self c rest) hmi]
        exact lc_bounds_set_of_set _ i b0
      · exact lc_bounds_set_of_set_other _ _ _ _ _ hmi hP
    · rw [if_neg h0]
      exact ih m (fun c' hc' => hall c' (List.mem_cons_of_mem _ hc')) hP

theorem lc_row_comps_sets {π : Type} (met : String) (b : Rat × Rat)
    (comps : List String) (c : String) (i : String) :
    ∀ (m : ThermoModel π), c ∈ comps → met ++ "_" ++ c = i →
    has_id_lc m.log_concentration i = true →
    lc_bounds_set (lc_row_comps met b m comps).log_concentration i b := by
  induction comps with
  | nil =>
    intro m hc _ _
    simp at hc
  | cons c0 rest ih =>
    intro m hc hmi hhas
    unfold lc_row_comps
    by_cases h0 : has_id_lc m.log_concentration (met ++ "_" ++ c0)
    · rw [if_pos h0]
      by_cases hmi0 : met ++ "_" ++ c0 = i
      · refine lc_row_comps_pres met b rest i b _ (fun c' _ _ => rfl) ?_
        rw [hmi0]
        exact lc_bounds_set_of_set _ i b
      · have hcr : c ∈ rest := by
          cases List.mem_cons.mp hc with
          | inl he => exact absurd (he ▸ hmi) hmi0
          | inr ht => exact ht
        refine ih _ hcr hmi ?_
        rw [has_id_lc_set_bounds]
        exact hhas
    · rw [if_neg h0]
      have hcr : c ∈ rest := by
        cases List.mem_cons.mp hc with
        | inl he =>
          rw [he] at hmi
          rw [hmi] at h0
          exact absurd hhas h0
        | inr ht => exact ht
      exact ih m hcr hmi hhas

theorem lc_loop_fields {π : Type} (rows : List (String × Rat × Rat)) :
    ∀ (m : ThermoModel π),
    (lc_loop m rows).name = m.name
    ∧ (lc_loop m rows).parent = m.parent
    ∧ (lc_loop m rows).reactions = m.reactions
    ∧ (lc_loop m rows).compartments = m.compartments
    ∧ (lc_loop m rows).solver = m.solver
    ∧ ∀ i, has_id_lc (lc_loop m rows).log_concentration i
        = has_id_lc m.log_concentration i := by
  induction rows with
  | nil =>
    intro m
    exact ⟨rfl, rfl, rfl, rfl, rfl, fun i => rfl⟩
  | cons row rest ih =>
    intro m
    unfold lc_loop
    obtain ⟨h1, h2, h3, h4, h5, h6⟩ := ih (apply_lc_row m row)
    obtain ⟨g1, g2, g3, g4, g5, g6⟩ :=
      lc_row_comps_fields row.1 row.2 m.compartments m
    exact ⟨h1.trans g1, h2.trans g2, h3.trans g3, h4.trans g4, h5.trans g5,
      fun i => (h6 i).trans (g6 i)⟩

theorem lc_loop_pres {π : Type} (rows : List (String × Rat × Rat))
    (i : String) (b0 : Rat × Rat) :
    ∀ (m : ThermoModel π),
    (∀ row ∈ rows, ∀ c ∈ m.compartments, row.1 ++ "_" ++ c = i →
      row.2 = b0) →
    lc_bounds_set m.log_concentration i b0 →
    lc_bounds_set (lc_loop m rows).log_concentration i b0 := by
  induction rows with
  | nil =>
    intro m _ hP
    exact hP
  | cons row rest ih =>
    intro m hall hP
    unfold lc_loop
    have hcomp := (lc_row_comps_fields row.1 row.2 m.compartments m).2.2.2.1
    refine ih (apply_lc_row m row) ?_ ?_
    · intro r hr c hc hmi
      refine hall r (List.mem_cons_of_mem _ hr) c ?_ hmi
      rw [← hcomp]
      exact hc
    · exact lc_row_comps_pres row.1 row.2 m.compartments i b0 m
        (hall row (List.mem_cons_self row rest)) hP

theorem lc_loop_sets {π : Type} (rows : List (String × Rat × Rat))
    (i : String) (b : Rat × Rat) :
    ∀ (m : ThermoModel π),
    (∃ row ∈ rows, ∃ c ∈ m.compartments, row.1 ++ "_" ++ c = i ∧ row.2 = b) →
    (∀ row ∈ rows, ∀ c ∈ m.compartments, row.1 ++ "_" ++ c = i →
      row.2 = b) →
    has_id_lc m.log_concentration i = true →
    lc_bounds_set (lc_loop m rows).log_concentration i b := by
  induction rows with
  | nil =>
    intro m hex _ _
    simp at hex
  | cons row rest ih =>
    intro m hex hall hhas
    unfold lc_loop
    have hcomp := (lc_row_comps_fields row.1 row.2 m.compartments m).2.2.2.1
    have hhid := (lc_row_comps_fields row.1 row.2 m.compartments m).2.2.2.2.2
    by_cases hw : ∃ c ∈ m.compartments, row.1 ++ "_" ++ c = i
    · obtain ⟨c0, hc0, hmi0⟩ := hw
      have hb : row.2 = b := hall row (List.mem_cons_self row rest) c0 hc0 hmi0
      have hset : lc_bounds_set (apply_lc_row m row).log_concentration i row.2 :=
        lc_row_comps_sets row.1 row.2 m.compartments c0 i m hc0 hmi0 hhas
      rw [hb] at hset
      refine lc_loop_pres rest i b (apply_lc_row m row) ?_ hset
      intro r hr c hc hmi
      refine hall r (List.mem_cons_of_mem _ hr) c ?_ hmi
      rw [← hcomp]
      exact hc
    · obtain ⟨row0, hrow0, c0, hc0, hmi0, hb0⟩ := hex
      have hr0 : row0 ∈ rest := by
        cases List.mem_cons.mp hrow0 with
        | inl he => exact absurd ⟨c0, hc0, he ▸ hmi0⟩ hw
        | inr ht => exact ht
      refine ih (apply_lc_row m row) ?_ ?_ ?_
      · refine ⟨row0, hr0, c0, ?_, hmi0, hb0⟩
        show c0 ∈ (lc_row_comps row.1 row.2 m m.compartments).compartments
        rw [hcomp]
        exact hc0
      · intro r hr c hc hmi
        refine hall r (List.mem_cons_of_mem _ hr) c ?_ hmi
        rw [← hcomp]
        exact hc
      · show has_id_lc
            (lc_row_comps row.1 row.2 m m.compartments).log_concentration i
          = true
        rw [hhid i]
        exact hhas

/-- The model adjust_model produces from wModel when rxn_bounds is
[("R1", 1, 2)] and lc_bounds is [("glc", 3, 4)]. -/
def wAdjusted : ThermoModel Nat :=
  { name := "small_ecoli"
    parent := { reactions := [Reaction.mk "R1" (1, 2), Reaction.mk "R2" (0, 0)],
                payload := 1 }
    reactions := [Reaction.mk "R1" (1, 2), Reaction.mk "R2" (0, 0)]
    compartments := ["c", "e"]
    log_concentration := [LogConcVar.mk "glc_c" (3, 4),
                          LogConcVar.mk "glc_e" (3, 4)]
    solver :=
      { interfaceName := "optlang.glpk_interface"
        numericFocus := none
        feasibility := 0
        presolve := false }
    payload := 5 }

/-- The model adjust_model produces from wModel when rxn_bounds is
[("R1", 1, 2)] and lc_bounds is empty. -/
def wAdjustedRxn : ThermoModel Nat :=
  { wModel with
    parent := { reactions := [Reaction.mk "R1" (1, 2), Reaction.mk "R2" (0, 0)],
                payload := 1 }
    reactions := [Reaction.mk "R1" (1, 2), Reaction.mk "R2" (0, 0)] }

/-- The model adjust_model produces from wModel when rxn_bounds is empty
and lc_bounds is [("glc", 3, 4)]. -/
def wAdjustedLc : ThermoModel Nat :=
  { wModel with
    log_concentration := [LogConcVar.mk "glc_c" (3, 4),
                          LogConcVar.mk "glc_e" (3, 4)] }

/-- C2: adjust_model sets numeric bounds on matching identifiers, each
table independently.  On any successful call, every row (id, lb, ub) of
rxn_bounds whose id is a reaction of tmodel leaves that reaction with
bounds (lb, ub); and, separately, every row (id, lb, ub) of lc_bounds
together with a compartment c of tmodel such that id ++ "_" ++ c is a
log-concentration variable leaves that variable with bounds (lb, ub) —
each half provided only, as the claim presupposes by assigning each target
one value, that rows of its own table aiming at the same identifier agree
on the bounds they assign. -/
theorem adjust_model_sets_bounds {π : Type} (m mf : ThermoModel π)
    (rxn_bounds lc_bounds : List (String × Rat × Rat))
    (h : adjust_model m rxn_bounds lc_bounds = Except.ok mf) :
    (∀ row ∈ rxn_bounds, has_id_rxn m.reactions row.1 = true →
      (∀ row' ∈ rxn_bounds, row'.1 = row.1 → row'.2 = row.2) →
      has_id_rxn mf.reactions row.1 = true
      ∧ rxn_bounds_set mf.reactions row.1 row.2)
    ∧ (∀ lrow ∈ lc_bounds, ∀ c ∈ m.compartments,
      has_id_lc m.log_concentration (lrow.1 ++ "_" ++ c) = true →
      (∀ row' ∈ lc_bounds, ∀ c' ∈ m.compartments,
        row'.1 ++ "_" ++ c' = lrow.1 ++ "_" ++ c → row'.2 = lrow.2) →
      has_id_lc mf.log_concentration (lrow.1 ++ "_" ++ c) = true
      ∧ lc_bounds_set mf.log_concentration (lrow.1 ++ "_" ++ c) lrow.2) := by
  unfold adjust_model at h
  cases hr : rxn_loop m rxn_bounds with
  | error e =>
    rw [hr] at h
    exact absurd h (by simp)
  | ok m1 =>
    rw [hr] at h
    simp only [Except.ok.injEq] at h
    subst h
    obtain ⟨hn1, hc1, hl1, hs1, hh1, hhp1⟩ := rxn_loop_ok_fields rxn_bounds m m1 hr
    obtain ⟨gn, gp, grxn, gcomp, gsol, ghid⟩ := lc_loop_fields lc_bounds m1
    constructor
    · intro row hrow hhas huniq
      obtain ⟨hPr, hQr, hhr, hhpr⟩ := rxn_loop_sets rxn_bounds row.1 row.2 m m1 hr
        ⟨row, hrow, rfl⟩ huniq hhas
      constructor
      · rw [grxn]
        exact hhr
      · rw [grxn]
        exact hPr
    · intro lrow hlrow c hc hlhas hluniq
      constructor
      · rw [ghid, hl1]
        exact hlhas
      · refine lc_loop_sets lc_bounds (lrow.1 ++ "_" ++ c) lrow.2 m1
          ⟨lrow, hlrow, c, ?_, rfl, rfl⟩ ?_ ?_
        · rw [hc1]
          exact hc
        · intro r hr' c' hc' hmi
          refine hluniq r hr' c' ?_ hmi
          rw [← hc1]
          exact hc'
        · rw [hl1]
          exact hlhas

/-- Witness for C2, exercising each half independently: a call whose
lc_bounds is empty still sets reaction R1 to (1, 2), and a call whose
rxn_bounds is empty still sets log-concentration variable glc_c to
(3, 4). -/
theorem adjust_model_sets_bounds_witness :
    (has_id_rxn wAdjustedRxn.reactions "R1" = true
      ∧ rxn_bounds_set wAdjustedRxn.reactions "R1" (1, 2))
    ∧ (has_id_lc wAdjustedLc.log_concentration "glc_c" = true
      ∧ lc_bounds_set wAdjustedLc.log_concentration "glc_c" (3, 4)) :=
  ⟨(adjust_model_sets_bounds wModel wAdjustedRxn [("R1", 1, 2)] [] rfl).1
      ("R1", 1, 2) (by simp) rfl (by decide),
   (adjust_model_sets_bounds wModel wAdjustedLc [] [("glc", 3, 4)] rfl).2
      ("glc", 3, 4) (by simp) "c" (by decide) rfl (by decide)⟩

/-- C9: a rxn_bounds row whose id is present writes the new bounds to two
objects, the reaction of tmodel itself and the corresponding reaction of
tmodel.parent, so the underlying cobra model is mutated as well. -/
theorem adjust_model_mutates_parent {π : Type} (m mf : ThermoModel π)
    (rxn_bounds lc_bounds : List (String × Rat × Rat))
    (row : String × Rat × Rat)
    (h : adjust_model m rxn_bounds lc_bounds = Except.ok mf)
    (hrow : row ∈ rxn_bounds)
    (hhas : has_id_rxn m.reactions row.1 = true)
    (huniq : ∀ row' ∈ rxn_bounds, row'.1 = row.1 → row'.2 = row.2) :
    has_id_rxn mf.parent.reactions row.1 = true
    ∧ rxn_bounds_set mf.parent.reactions row.1 row.2
    ∧ rxn_bounds_set mf.reactions row.1 row.2 := by
  unfold adjust_model at h
  cases hr : rxn_loop m rxn_bounds with
  | error e =>
    rw [hr] at h
    exact absurd h (by simp)
  | ok m1 =>
    rw [hr] at h
    simp only [Except.ok.injEq] at h
    subst h
    obtain ⟨hPr, hQr, hhr, hhpr⟩ := rxn_loop_sets rxn_bounds row.1 row.2 m m1 hr
      ⟨row, hrow, rfl⟩ huniq hhas
    obtain ⟨gn, gp, grxn, gcomp, gsol, ghid⟩ := lc_loop_fields lc_bounds m1
    refine ⟨?_, ?_, ?_⟩
    · rw [gp]
      exact hhpr
    · rw [gp]
      exact hQr
    · rw [grxn]
      exact hPr

/-- Witness for C9 on the same concrete adjustment. -/
theorem adjust_model_mutates_parent_witness :
    has_id_rxn wAdjusted.parent.reactions "R1" = true
    ∧ rxn_bounds_set wAdjusted.parent.reactions "R1" (1, 2)
    ∧ rxn_bounds_set wAdjusted.reactions "R1" (1, 2) :=
  adjust_model_mutates_parent wModel wAdjusted [("R1", 1, 2)]
    [("glc", 3, 4)] ("R1", 1, 2) rfl (by simp) rfl (by decide)

theorem rxn_loop_miss {π : Type} (rows : List (String × Rat × Rat))
    (m : ThermoModel π)
    (h : ∀ row ∈ rows, has_id_rxn m.reactions row.1 = false) :
    rxn_loop m rows = Except.ok m := by
  induction rows with
  | nil => rfl
  | cons row rest ih =>
    unfold rxn_loop
    have happ : apply_rxn_row m row = Except.ok m := by
      unfold apply_rxn_row
      rw [if_neg (by simp [h row (List.mem_cons_self row rest)])]
    rw [happ]
    exact ih (fun r hr => h r (List.mem_cons_of_mem _ hr))

theorem lc_row_comps_miss {π : Type} (met : String) (b : Rat × Rat)
    (comps : List String) (m : ThermoModel π)
    (h : ∀ c ∈ comps, has_id_lc m.log_concentration (met ++ "_" ++ c) = false) :
    lc_row_comps met b m comps = m := by
  induction comps with
  | nil => rfl
  | cons c rest ih =>
    unfold lc_row_comps
    rw [if_neg (by simp [h c (List.mem_cons_self c rest)])]
    exact ih (fun c' hc' => h c' (List.mem_cons_of_mem _ hc'))

theorem lc_loop_miss {π : Type} (rows : List (String × Rat × Rat))
    (m : ThermoModel π)
    (h : ∀ row ∈ rows, ∀ c ∈ m.compartments,
      has_id_lc m.log_concentration (row.1 ++ "_" ++ c) = false) :
    lc_loop m rows = m := by
  induction rows with
  | nil => rfl
  | cons row rest ih =>
    unfold lc_loop
    have happ : apply_lc_row m row = m :=
      lc_row_comps_miss row.1 row.2 m.compartments m
        (h row (List.mem_cons_self row rest))
    rw [happ]
    exact ih (fun r hr => h r (List.mem_cons_of_mem _ hr))

/-- C3: adjust_model applies bounds only after an existence check.  A
rxn_bounds row whose id is not a reaction of tmodel is a no-op and raises
nothing; an lc_bounds row whose id matches no log-concentration variable in
any compartment is a no-op; and when every row misses, the whole call
returns the model unchanged with no error. -/
theorem adjust_model_skips_missing {π : Type} :
    (∀ (m : ThermoModel π) (row : String × Rat × Rat),
      has_id_rxn m.reactions row.1 = false →
      apply_rxn_row m row = Except.ok m)
    ∧ (∀ (m : ThermoModel π) (row : String × Rat × Rat),
      (∀ c ∈ m.compartments,
        has_id_lc m.log_concentration (row.1 ++ "_" ++ c) = false) →
      apply_lc_row m row = m)
    ∧ (∀ (m : ThermoModel π)
        (rxn_bounds lc_bounds : List (String × Rat × Rat)),
      (∀ row ∈ rxn_bounds, has_id_rxn m.reactions row.1 = false) →
      (∀ row ∈ lc_bounds, ∀ c ∈ m.compartments,
        has_id_lc m.log_concentration (row.1 ++ "_" ++ c) = false) →
      adjust_model m rxn_bounds lc_bounds = Except.ok m) := by
  refine ⟨?_, ?_, ?_⟩
  · intro m row hmiss
    unfold apply_rxn_row
    rw [if_neg (by simp [hmiss])]
  · intro m row hmiss
    exact lc_row_comps_miss row.1 row.2 m.compartments m hmiss
  · intro m rxn_bounds lc_bounds hr hl
    unfold adjust_model
    rw [rxn_loop_miss rxn_bounds m hr]
    show Except.ok (lc_loop m lc_bounds) = Except.ok m
    rw [lc_loop_miss lc_bounds m hl]

/-- Witness for C3 at rows whose ids match nothing in the concrete model. -/
theorem adjust_model_skips_missing_witness :
    apply_rxn_row wModel ("nope", 1, 2) = Except.ok wModel
    ∧ apply_lc_row wModel ("nope", 3, 4) = wModel
    ∧ adjust_model wModel [("nope", 1, 2)] [("nope", 3, 4)] =
        Except.ok wModel :=
  ⟨(@adjust_model_skips_missing Nat).1 wModel ("nope", 1, 2) rfl,
   (@adjust_model_skips_missing Nat).2.1 wModel ("nope", 3, 4) (by decide),
   (@adjust_model_skips_missing Nat).2.2 wModel [("nope", 1, 2)]
     [("nope", 3, 4)] (by decide) (by decide)⟩

/-- C7: apart from the all-or-none validation, io.py catches and transforms
no exception: an error raised by any underlying library call (thermo
database loading, lexicon reading, compartment-data reading, model loading,
annotation, compartment application, prepare, convert, or the bound-setting
lookup inside adjust_model) surfaces to the caller as exactly the same
error. -/
theorem io_error_propagation {Θ Λ Γ π : Type} :
    (∀ (env : Env Θ Λ Γ π) (n e : String),
      env.load_thermoDB (path_static env.static_dir "thermo_data.thermodb") =
        Except.error e →
      create_model env n none none none = Except.error e)
    ∧ (∀ (env : Env Θ Λ Γ π) (n : String) (td : Θ) (e : String),
      env.load_thermoDB (path_static env.static_dir "thermo_data.thermodb") =
        Except.ok td →
      env.read_lexicon
        (path_static env.static_dir (n ++ "/" ++ "lexicon.csv")) =
        Except.error e →
      create_model env n none none none = Except.error e)
    ∧ (∀ (env : Env Θ Λ Γ π) (n : String) (td : Θ) (lx : Λ) (e : String),
      env.load_thermoDB (path_static env.static_dir "thermo_data.thermodb") =
        Except.ok td →
      env.read_lexicon
        (path_static env.static_dir (n ++ "/" ++ "lexicon.csv")) =
        Except.ok lx →
      env.read_compartment_data
        (path_static env.static_dir (n ++ "/" ++ "compartment_data.json")) =
        Except.error e →
      create_model env n none none none = Except.error e)
    ∧ (∀ (env : Env Θ Λ Γ π) (n : String) (td : Θ) (lx : Λ) (cd : Γ)
        (e : String),
      load_cbm env n = Except.error e →
      create_model env n (some td) (some lx) (some cd) = Except.error e)
    ∧ (∀ (env : Env Θ Λ Γ π) (n : String) (td : Θ) (lx : Λ) (cd : Γ)
        (cm : CobraModel π) (e : String),
      load_cbm env n = Except.ok cm →
      env.annotate_from_lexicon (env.mkThermoModel td cm).payload lx =
        Except.error e →
      create_model env n (some td) (some lx) (some cd) = Except.error e)
    ∧ (∀ (env : Env Θ Λ Γ π) (n : String) (td : Θ) (lx : Λ) (cd : Γ)
        (cm : CobraModel π) (p1 : π) (e : String),
      load_cbm env n = Except.ok cm →
      env.annotate_from_lexicon (env.mkThermoModel td cm).payload lx =
        Except.ok p1 →
      env.apply_compartment_data p1 cd = Except.error e →
      create_model env n (some td) (some lx) (some cd) = Except.error e)
    ∧ (∀ (env : Env Θ Λ Γ π) (n : String) (td : Θ) (lx : Λ) (cd : Γ)
        (cm : CobraModel π) (p1 p2 : π) (e : String),
      load_cbm env n = Except.ok cm →
      env.annotate_from_lexicon (env.mkThermoModel td cm).payload lx =
        Except.ok p1 →
      env.apply_compartment_data p1 cd = Except.ok p2 →
      env.prepare p2 = Except.error e →
      create_model env n (some td) (some lx) (some cd) = Except.error e)
    ∧ (∀ (env : Env Θ Λ Γ π) (n : String) (td : Θ) (lx : Λ) (cd : Γ)
        (cm : CobraModel π) (p1 p2 p3 : π) (e : String),
      load_cbm env n = Except.ok cm →
      env.annotate_from_lexicon (env.mkThermoModel td cm).payload lx =
        Except.ok p1 →
      env.apply_compartment_data p1 cd = Except.ok p2 →
      env.prepare p2 = Except.ok p3 →
      env.convert p3 = Except.error e →
      create_model env n (some td) (some lx) (some cd) = Except.error e)
    ∧ (∀ (m : ThermoModel π) (row : String × Rat × Rat)
        (rest lcb : List (String × Rat × Rat)) (e : String),
      apply_rxn_row m row = Except.error e →
      adjust_model m (row :: rest) lcb = Except.error e) := by
  refine ⟨?_, ?_, ?_, ?_, ?_, ?_, ?_, ?_, ?_⟩
  · intro env n e h1
    simp [create_model, load_data, h1]
  · intro env n td e h1 h2
    simp [create_model, load_data, h1, h2]
  · intro env n td lx e h1 h2 h3
    simp [create_model, load_data, h1, h2, h3]
  · intro env n td lx cd e h
    show create_model_body env n td lx cd = Except.error e
    unfold create_model_body
    rw [h]
  · intro env n td lx cd cm e hcm ha
    show create_model_body env n td lx cd = Except.error e
    unfold create_model_body
    rw [hcm]
    simp only
    rw [ha]
  · intro env n td lx cd cm p1 e hcm ha hap
    show create_model_body env n td lx cd = Except.error e
    unfold create_model_body
    rw [hcm]
    simp only
    rw [ha]
    simp only
    rw [hap]
  · intro env n td lx cd cm p1 p2 e hcm ha hap hp
    show create_model_body env n td lx cd = Except.error e
    unfold create_model_body
    rw [hcm]
    simp only
    rw [ha]
    simp only
    rw [hap]
    simp only
    by_cases hg : (env.mkThermoModel td cm).solver.interfaceName ==
        "optlang.gurobi_interface"
    · rw [if_pos hg]
      simp only
      rw [hp]
    · rw [if_neg hg]
      simp only
      rw [hp]
  · intro env n td lx cd cm p1 p2 p3 e hcm ha hap hp hc
    show create_model_body env n td lx cd = Except.error e
    unfold create_model_body
    rw [hcm]
    simp only
    rw [ha]
    simp only
    rw [hap]
    simp only
    by_cases hg : (env.mkThermoModel td cm).solver.interfaceName ==
        "optlang.gurobi_interface"
    · rw [if_pos hg]
      simp only
      rw [hp]
      simp only
      rw [hc]
    · rw [if_neg hg]
      simp only
      rw [hp]
      simp only
      rw [hc]
  · intro m row rest lcb e h
    simp [adjust_model, rxn_loop, h]

/-- Environment whose thermo-database load fails. -/
def wEnvFailDB : Env Nat Nat Nat Nat :=
  { wEnv with load_thermoDB := fun _ => Except.error "eDB" }

/-- Environment whose lexicon read fails. -/
def wEnvFailLex : Env Nat Nat Nat Nat :=
  { wEnv with read_lexicon := fun _ => Except.error "eLex" }

/-- Environment whose compartment-data read fails. -/
def wEnvFailCD : Env Nat Nat Nat Nat :=
  { wEnv with read_compartment_data := fun _ => Except.error "eCD" }

/-- Environment whose JSON model load fails. -/
def wEnvFailJson : Env Nat Nat Nat Nat :=
  { wEnv with load_json_model := fun _ => Except.error "eJson" }

/-- Environment whose lexicon annotation fails. -/
def wEnvFailAnn : Env Nat Nat Nat Nat :=
  { wEnv with annotate_from_lexicon := fun _ _ => Except.error "eAnn" }

/-- Environment whose compartment application fails. -/
def wEnvFailApply : Env Nat Nat Nat Nat :=
  { wEnv with apply_compartment_data := fun _ _ => Except.error "eApply" }

/-- Environment whose prepare call fails. -/
def wEnvFailPrep : Env Nat Nat Nat Nat :=
  { wEnv with prepare := fun _ => Except.error "ePrep" }

/-- Environment whose convert call fails. -/
def wEnvFailConv : Env Nat Nat Nat Nat :=
  { wEnv with convert := fun _ => Except.error "eConv" }

/-- A model whose tmodel reaction list has R1 but whose parent lacks it, so
the parent-side get_by_id raises KeyError. -/
def wModelNoParentR1 : ThermoModel Nat :=
  { wModel with parent := { reactions := [], payload := 1 } }

/-- Witness for C7: each failing library call in the concrete environments
surfaces its own error string unchanged. -/
theorem io_error_propagation_witness :
    create_model wEnvFailDB "m" none none none = Except.error "eDB"
    ∧ create_model wEnvFailLex "m" none none none = Except.error "eLex"
    ∧ create_model wEnvFailCD "m" none none none = Except.error "eCD"
    ∧ create_model wEnvFailJson "m" (some 7) (some 8) (some 9) =
        Except.error "eJson"
    ∧ create_model wEnvFailAnn "m" (some 7) (some 8) (some 9) =
        Except.error "eAnn"
    ∧ create_model wEnvFailApply "m" (some 7) (some 8) (some 9) =
        Except.error "eApply"
    ∧ create_model wEnvFailPrep "m" (some 7) (some 8) (some 9) =
        Except.error "ePrep"
    ∧ create_model wEnvFailConv "m" (some 7) (some 8) (some 9) =
        Except.error "eConv"
    ∧ adjust_model wModelNoParentR1 [("R1", 1, 2)] [] =
        Except.error ("KeyError: " ++ "R1") :=
  ⟨(@io_error_propagation Nat Nat Nat Nat).1 wEnvFailDB "m" "eDB" rfl,
   (@io_error_propagation Nat Nat Nat Nat).2.1 wEnvFailLex "m" 7 "eLex" rfl rfl,
   (@io_error_propagation Nat Nat Nat Nat).2.2.1 wEnvFailCD "m" 7 8 "eCD" rfl rfl rfl,
   (@io_error_propagation Nat Nat Nat Nat).2.2.2.1 wEnvFailJson "m" 7 8 9 "eJson" rfl,
   (@io_error_propagation Nat Nat Nat Nat).2.2.2.2.1 wEnvFailAnn "m" 7 8 9
     { reactions := [], payload := 1 } "eAnn" rfl rfl,
   (@io_error_propagation Nat Nat Nat Nat).2.2.2.2.2.1 wEnvFailApply "m" 7 8 9
     { reactions := [], payload := 1 } 11 "eApply" rfl rfl rfl,
   (@io_error_propagation Nat Nat Nat Nat).2.2.2.2.2.2.1 wEnvFailPrep "m" 7 8 9
     { reactions := [], payload := 1 } 11 111 "ePrep" rfl rfl rfl rfl,
   (@io_error_propagation Nat Nat Nat Nat).2.2.2.2.2.2.2.1 wEnvFailConv "m" 7 8 9
     { reactions := [], payload := 1 } 11 111 1111 "eConv" rfl rfl rfl rfl rfl,
   (@io_error_propagation Nat Nat Nat Nat).2.2.2.2.2.2.2.2 wModelNoParentR1 ("R1", 1, 2) [] []
     ("KeyError: " ++ "R1") rfl⟩
